import Mathlib

/-!
Verification development for the product→SEO-category matching engine
(`src/lib/text.ts`, `src/lib/seo-mapper.ts`, `src/lib/types.ts`).

Numbers are modelled exactly over `ℝ` (the source computes with JS numbers;
`x.toFixed(6)` / `Math.round` are modelled as exact decimal rounding).
The Snowball Russian stemmer comes from the external `snowball-stemmers`
package and is modelled as an abstract parameter `stem : String → String`
(the spec, §4.1, fixes only that it is a deterministic token reduction).
Concrete instances below use two-letter Latin tokens, on which the Russian
stemmer acts as the identity (it only strips Cyrillic suffixes).
-/

namespace SeoMapper

/-! ## Text layer (`src/lib/text.ts`) -/

/-- Character class of `TOKEN_REGEX = /[a-zа-яё0-9]+/gi` (the `i` flag also
admits the uppercase Latin and Cyrillic ranges). -/
def isTokenChar (c : Char) : Bool :=
  (('a' ≤ c) && (c ≤ 'z')) || (('A' ≤ c) && (c ≤ 'Z')) ||
  (('0' ≤ c) && (c ≤ '9')) ||
  (('а' ≤ c) && (c ≤ 'я')) || (('А' ≤ c) && (c ≤ 'Я')) ||
  (c = 'ё') || (c = 'Ё')

/-- JS `String.prototype.toLowerCase` restricted to the alphabets the
matcher can meet (ASCII letters and the Russian alphabet). -/
def jsToLower (c : Char) : Char :=
  if 'A' ≤ c ∧ c ≤ 'Z' then Char.ofNat (c.toNat + 32)
  else if 'А' ≤ c ∧ c ≤ 'Я' then Char.ofNat (c.toNat + 32)
  else if c = 'Ё' then 'ё'
  else c

/-- JS whitespace class `\s` (the characters relevant to this corpus). -/
def isJsWs (c : Char) : Bool :=
  c = ' ' || c = '\t' || c = '\n' || c = '\r' ||
  c = Char.ofNat 11 || c = Char.ofNat 12

/-- Maximal runs of token characters, as in `text.match(TOKEN_REGEX)`. -/
def tokenizeAux : List Char → List Char → List String
  | [], acc => if acc.isEmpty then [] else [String.mk acc.reverse]
  | c :: rest, acc =>
    if isTokenChar c then tokenizeAux rest (c :: acc)
    else if acc.isEmpty then tokenizeAux rest []
    else String.mk acc.reverse :: tokenizeAux rest []

/-- `tokenize` from `text.ts`: maximal `[a-zа-яё0-9]+` runs (`null`/empty
input yields `[]`, covered by the empty string). -/
def tokenize (s : String) : List String := tokenizeAux s.toList []

/-- `STOP_WORDS` from `text.ts`, verbatim. -/
def STOP_WORDS : List String :=
  ["и", "в", "во", "не", "что", "он", "она", "но", "а", "как", "к", "ко",
   "до", "вы", "мы", "они", "из", "у", "по", "на", "это", "тот", "та", "те",
   "для", "при", "от", "со", "соответствие", "комплект", "система",
   "системы", "системный", "оборудование", "оборудования", "решение",
   "решения", "платформа", "платформы", "серия", "серии", "тип", "типа",
   "устройство", "устройства", "timmer", "бренд", "brand", "series",
   "system", "systems", "device", "devices"]

/-- `normalizeTokens` from `text.ts`: tokenize, lowercase, stem, drop short
tokens and stop words.  `stem` abstracts the external Snowball Russian
stemmer. -/
def normalizeTokens (stem : String → String) (text : String) : List String :=
  (((tokenize text).map (fun t => String.mk (t.toList.map jsToLower))).map
      stem).filter
    (fun t => decide (1 < t.length) && !(STOP_WORDS.contains t))

/-- `joinTokens` from `text.ts`. -/
def joinTokens (tokens : List String) : String :=
  String.intercalate " " tokens

/-- L2 norm of a dense vector. -/
noncomputable def l2norm (v : List ℝ) : ℝ :=
  Real.sqrt ((v.map (fun x => x * x)).sum)

/-- L2-normalize; a zero-norm vector is returned unchanged. -/
noncomputable def normalizeVec (v : List ℝ) : List ℝ :=
  if l2norm v = 0 then v else v.map (fun x => x / l2norm v)

/-- Dot product over the common prefix (JS loops to
`Math.min(a.length, b.length)`). -/
noncomputable def dotList (a b : List ℝ) : ℝ :=
  (List.zipWith (fun x y => x * y) a b).sum

/-- JS `Math.round`: round half toward positive infinity. -/
noncomputable def jsRound (x : ℝ) : ℤ := ⌊x + 1 / 2⌋

/-- `Number(x.toFixed(6))` as exact decimal rounding to six places. -/
noncomputable def round6 (x : ℝ) : ℝ := (jsRound (x * 1000000) : ℝ) / 1000000

/-- JS `String.prototype.trim`. -/
def jsTrim (s : String) : String :=
  String.mk (((s.toList.dropWhile isJsWs).reverse.dropWhile isJsWs).reverse)

/-- Decimal digit string of a natural number padded to `d` digits. -/
def padDigits (n : Nat) (d : Nat) : String :=
  let digits := toString n
  String.mk (List.replicate (d - digits.length) '0') ++ digits

/-- JS `x.toFixed(d)` (used only inside human-readable reason strings). -/
noncomputable def fmtFixed (x : ℝ) (d : Nat) : String :=
  let scaled : ℤ := ⌊|x| * (10 : ℝ) ^ d + 1 / 2⌋
  let scaledNat := scaled.toNat
  (if x < 0 then "-" else "") ++ toString (scaledNat / 10 ^ d) ++ "." ++
    padDigits (scaledNat % 10 ^ d) d

/-! ## Data model (`src/lib/types.ts`) -/

/-- `SeoCategory` (the `id` is modelled as the category's corpus position,
standing in for the generated UUID). -/
structure SeoCategory where
  id : Nat
  rawPath : String
  levels : List String
  tokens : List String
  normalizedText : String

/-- `ProductRecord` (the opaque `fields` bag, `id`, `sourceFile` and
`rowIndex` are omitted: the matcher never reads them). -/
structure ProductRecord where
  productName : String
  categoryOld : Option String
  description : Option String
  aggregatedText : String
  tokens : List String

/-- `CandidateMatch`. -/
structure CandidateMatch where
  categoryId : Nat
  categoryPath : String
  score : ℝ
  overlap : Nat
  jaccard : ℝ

/-- `MappingOptions`. -/
structure MappingOptions where
  similarityThreshold : ℝ
  gapThreshold : ℝ
  tokenOverlapThreshold : ℝ
  useOpenAI : Bool
  openAIApiKey : Option String
  confidenceMinPercent : ℝ

inductive MapStatus where
  | mapped
  | not_mapped
deriving DecidableEq

/-- The external embedding service, as the injected capability of spec §6:
batch texts in, embedding vectors out, or a distinguishable error. -/
def Embedder : Type := List String → Except String (List (List ℝ))

/-! ## Record construction (`parseSeoStructure` / `parseProducts`) -/

/-- Category construction of `parseSeoStructure` (seo-mapper.ts:115-129)
for one raw cell, given the category's corpus position as `id`. -/
def mkSeoCategory (stem : String → String) (id : Nat) (cell : String) :
    SeoCategory :=
  let rawPath := jsTrim cell
  let levels := ((rawPath.splitOn "///").map jsTrim).filter (fun l => l ≠ "")
  let tokens := normalizeTokens stem rawPath
  { id := id, rawPath := rawPath, levels := levels, tokens := tokens,
    normalizedText := joinTokens tokens }

/-- JS `array.join(' ')`. -/
def joinSp : List String → String
  | [] => ""
  | [x] => x
  | x :: y :: xs => x ++ " " ++ joinSp (y :: xs)

/-- Product-record construction of `parseProducts` (seo-mapper.ts:145-179)
from the row's textual fields (`[...].filter(Boolean).join(' ')`). -/
def mkProductRecord (stem : String → String)
    (name oldCat desc meta page seo chars : String) : ProductRecord :=
  let productName := jsTrim name
  let categoryOld := if jsTrim oldCat = "" then none else some (jsTrim oldCat)
  let description := if jsTrim desc = "" then none else some (jsTrim desc)
  let aggregatedText := joinSp
    (([productName, (categoryOld.getD ""), (description.getD ""), jsTrim meta,
       jsTrim page, jsTrim seo, jsTrim chars]).filter (fun s => s ≠ ""))
  { productName := productName, categoryOld := categoryOld,
    description := description, aggregatedText := aggregatedText,
    tokens := normalizeTokens stem aggregatedText }

/-! ## Hybrid scorer and stable sort (`mapProducts`, seo-mapper.ts:211-248) -/

def OPENAI_TOP_K : Nat := 6

noncomputable def OPENAI_SIMILARITY_THRESHOLD : ℝ := 0.78

noncomputable def OPENAI_GAP_THRESHOLD : ℝ := 0.02

open scoped Classical in
/-- Insert into a list sorted by descending score, before the first element
of strictly smaller score: the stable insertion step of JS
`sort((a, b) => b.score - a.score)` (`Array.prototype.sort` is stable). -/
noncomputable def insertCand (x : CandidateMatch) :
    List CandidateMatch → List CandidateMatch
  | [] => [x]
  | y :: ys => if y.score ≤ x.score then x :: y :: ys else y :: insertCand x ys

/-- Stable sort by descending score, extensionally equal to the JS
`sort((a, b) => b.score - a.score)` on any list (stable sorting by one key
is a unique function). -/
noncomputable def sortCand : List CandidateMatch → List CandidateMatch
  | [] => []
  | x :: xs => insertCand x (sortCand xs)

structure RefineResult where
  status : MapStatus
  bestCandidate : Option CandidateMatch
  rankedCandidates : List CandidateMatch
  confidence : ℤ
  reason : String

/-- The top-K lexical candidates with their scores replaced by the
embedding cosines against the product embedding (`rescoredTop`), re-sorted
by descending score (`rescoredSorted`, seo-mapper.ts:408-416).
`embeddings[0]` is the product embedding, `embeddings[i+1]` the embedding
of the i-th candidate text. -/
noncomputable def rescoredTopOf (ranked : List CandidateMatch)
    (embeddings : List (List ℝ)) : List CandidateMatch :=
  sortCand ((ranked.take OPENAI_TOP_K).enum.map (fun q =>
    { q.2 with score := round6 (dotList (embeddings.headD [])
        (embeddings.getD (q.1 + 1) [])) }))

open scoped Classical in
noncomputable def refineWithOpenAI (cats : List SeoCategory)
    (opts : MappingOptions) (embed : Embedder) (p : ProductRecord)
    (ranked : List CandidateMatch) : Except String (Option RefineResult) :=
  match opts.openAIApiKey with
  | none => .ok none
  | some _ =>
    let productText := jsTrim p.aggregatedText
    if productText = "" then
      .ok (some { status := .not_mapped, bestCandidate := ranked.head?,
                  rankedCandidates := ranked, confidence := 0,
                  reason := "OpenAI: недостаточно текста для построения эмбеддингов" })
    else
      let top := ranked.take OPENAI_TOP_K
      if top.isEmpty then .ok none
      else
        let candidateTexts := top.map (fun cand =>
          ((cats.find? (fun c => c.id = cand.categoryId)).map
            SeoCategory.rawPath).getD cand.categoryPath)
        match embed (productText :: candidateTexts) with
        | .error e => .error e
        | .ok raws =>
          let embeddings := raws.map normalizeVec
          if embeddings.length < top.length + 1 then
            .error "Cannot read properties of undefined"
          else
            let rescoredSorted := rescoredTopOf ranked embeddings
            let best? := rescoredSorted.head?
            let second? := rescoredSorted[1]?
            let gap := match best?, second? with
              | some b, some s => b.score - s.score
              | some b, none => b.score
              | none, _ => 0
            let confidencePercent :=
              jsRound (((best?.map CandidateMatch.score).getD 0) * 100)
            let merged := sortCand (rescoredSorted ++ ranked.drop top.length)
            let simThr := max opts.similarityThreshold
              OPENAI_SIMILARITY_THRESHOLD
            let gapThr := max (opts.gapThreshold / 2) OPENAI_GAP_THRESHOLD
            let reqOverlap := max 0 (opts.tokenOverlapThreshold - 1)
            match best? with
            | some best =>
              if best.score ≥ simThr ∧ (best.overlap : ℝ) ≥ reqOverlap ∧
                  (second? = none ∨ gap ≥ gapThr) then
                .ok (some
                  { status := .mapped, bestCandidate := some best,
                    rankedCandidates := merged, confidence := confidencePercent,
                    reason := "OpenAI embeddings подтвердили категорию (score=" ++
                      fmtFixed best.score 2 ++ ", gap=" ++ fmtFixed gap 2 ++ ")" })
              else
                .ok (some
                  { status := .not_mapped, bestCandidate := some best,
                    rankedCandidates := merged, confidence := confidencePercent,
                    reason := "OpenAI embeddings не дали уверенного совпадения (max=" ++
                      fmtFixed best.score 2 ++ ", gap=" ++ fmtFixed gap 2 ++ ")" })
            | none =>
              .ok (some
                { status := .not_mapped, bestCandidate := none,
                  rankedCandidates := merged, confidence := confidencePercent,
                  reason := "OpenAI embeddings не дали уверенного совпадения (max=" ++
                    fmtFixed 0 2 ++ ", gap=" ++ fmtFixed gap 2 ++ ")" })

/-! ## Per-product pass and run driver (`mapProducts`, seo-mapper.ts:188-368) -/

open scoped Classical

/-! ## Properties of the stable sort -/

theorem jsRound_eval (x : ℝ) (k : ℤ) (h1 : (k : ℝ) ≤ x + 1 / 2)
    (h2 : x + 1 / 2 < k + 1) : jsRound x = k := by
  rw [jsRound]
  exact Int.floor_eq_iff.mpr ⟨h1, h2⟩

theorem round6_eval (x : ℝ) (k : ℤ) (h1 : (k : ℝ) ≤ x * 1000000 + 1 / 2)
    (h2 : x * 1000000 + 1 / 2 < k + 1) : round6 x = (k : ℝ) / 1000000 := by
  rw [round6, jsRound_eval (x * 1000000) k h1 h2]

theorem round6_eq_self (x : ℝ) (k : ℤ) (hk : x * 1000000 = (k : ℝ)) :
    round6 x = x := by
  rw [round6_eval x k (by rw [hk]; norm_num) (by rw [hk]; norm_num), ← hk]
  field_simp

/-- The reranker's stricter acceptance condition evaluated on a candidate
list: its best must clear `max(similarityThreshold, 0.78)` and
`max(0, tokenOverlapThreshold-1)`, and either no second item exists or the
gap against the second item clears `max(gapThreshold/2, 0.02)`. -/
noncomputable def rerankAccept (opts : MappingOptions)
    (l : List CandidateMatch) : Prop :=
  match l with
  | [] => False
  | best :: rest =>
    best.score ≥ max opts.similarityThreshold OPENAI_SIMILARITY_THRESHOLD ∧
    (best.overlap : ℝ) ≥ max 0 (opts.tokenOverlapThreshold - 1) ∧
    (rest.head? = none ∨
      (match rest.head? with
       | some s => best.score - s.score
       | none => best.score) ≥ max (opts.gapThreshold / 2) OPENAI_GAP_THRESHOLD)

/-- C5 (amended): when the reranker runs on usable text with a well-formed
embedding response, it attaches the merge-then-sort candidate list, but its
acceptance verdict is computed from the re-sorted rescored top-K list
alone — the best and the number-two of that pre-merge list — not from the
merged list. -/
theorem refine_gate_on_rescored_topk (cats : List SeoCategory)
    (opts : MappingOptions) (embed : Embedder) (p : ProductRecord)
    (ranked : List CandidateMatch) (k : String)
    (hk : opts.openAIApiKey = some k)
    (htext : jsTrim p.aggregatedText ≠ "")
    (htop : ¬(ranked.take OPENAI_TOP_K).isEmpty = true)
    (raws : List (List ℝ))
    (hemb : embed (jsTrim p.aggregatedText ::
      (ranked.take OPENAI_TOP_K).map (fun cand =>
        ((cats.find? (fun c => c.id = cand.categoryId)).map
          SeoCategory.rawPath).getD cand.categoryPath)) = .ok raws)
    (hlen : ¬(raws.map normalizeVec).length <
      (ranked.take OPENAI_TOP_K).length + 1) :
    ∃ r, refineWithOpenAI cats opts embed p ranked = .ok (some r) ∧
      r.rankedCandidates = sortCand
        (rescoredTopOf ranked (raws.map normalizeVec) ++
          ranked.drop (ranked.take OPENAI_TOP_K).length) ∧
      (r.status = .mapped ↔
        rerankAccept opts (rescoredTopOf ranked (raws.map normalizeVec))) := by
  rw [refineWithOpenAI, hk]
  dsimp only
  rw [if_neg htext, if_neg htop, hemb]
  dsimp only
  rw [if_neg hlen]
  cases hcase : (rescoredTopOf ranked (raws.map normalizeVec)).head? with
  | none =>
    have hnil : rescoredTopOf ranked (raws.map normalizeVec) = [] :=
      List.head?_eq_none_iff.mp hcase
    dsimp only
    refine ⟨_, rfl, rfl, ?_⟩
    rw [hnil, rerankAccept]
    simp
  | some best =>
    obtain ⟨rest, hlist⟩ : ∃ rest,
        rescoredTopOf ranked (raws.map normalizeVec) = best :: rest := by
      cases hl : rescoredTopOf ranked (raws.map normalizeVec) with
      | nil => rw [hl] at hcase; exact absurd hcase (by simp)
      | cons a l =>
        rw [hl] at hcase
        simp only [List.head?_cons, Option.some.injEq] at hcase
        exact ⟨l, by rw [hcase]⟩
    dsimp only
    rw [hlist]
    simp only [List.getElem?_cons_succ, ← List.head?_eq_getElem?]
    cases hrh : rest.head? with
    | none =>
      dsimp only
      by_cases hnum : best.score ≥
          max opts.similarityThreshold OPENAI_SIMILARITY_THRESHOLD ∧
          (best.overlap : ℝ) ≥ max 0 (opts.tokenOverlapThreshold - 1)
      · rw [if_pos ⟨hnum.1, hnum.2, Or.inl rfl⟩]
        refine ⟨_, rfl, rfl, ?_⟩
        rw [rerankAccept, hrh]
        exact iff_of_true rfl ⟨hnum.1, hnum.2, Or.inl rfl⟩
      · rw [if_neg (fun hc => hnum ⟨hc.1, hc.2.1⟩)]
        refine ⟨_, rfl, rfl, ?_⟩
        rw [rerankAccept, hrh]
        constructor
        · intro hx
          exact absurd hx (by intro hy; exact MapStatus.noConfusion hy)
        · rintro ⟨a, b, -⟩
          exact absurd (And.intro a b) hnum
    | some s =>
      dsimp only
      by_cases hnum : best.score ≥
          max opts.similarityThreshold OPENAI_SIMILARITY_THRESHOLD ∧
          (best.overlap : ℝ) ≥ max 0 (opts.tokenOverlapThreshold - 1) ∧
          best.score - s.score ≥
            max (opts.gapThreshold / 2) OPENAI_GAP_THRESHOLD
      · rw [if_pos ⟨hnum.1, hnum.2.1, Or.inr hnum.2.2⟩]
        refine ⟨_, rfl, rfl, ?_⟩
        rw [rerankAccept, hrh]
        exact iff_of_true rfl ⟨hnum.1, hnum.2.1, Or.inr hnum.2.2⟩
      · rw [if_neg (fun hc => hnum ⟨hc.1, hc.2.1, by
          rcases hc.2.2 with h | h
          · exact absurd h (by simp)
          · exact h⟩)]
        refine ⟨_, rfl, rfl, ?_⟩
        rw [rerankAccept, hrh]
        constructor
        · intro hx
          exact absurd hx (by intro hy; exact MapStatus.noConfusion hy)
        · rintro ⟨a, b, hor⟩
          rcases hor with h | h
          · exact absurd h (by simp)
          · exact absurd ⟨a, b, h⟩ hnum

/-! ## C6: empty aggregated text -/

def exCats : List SeoCategory := [mkSeoCategory id 0 "ab cd ef gh"]

def exProd : ProductRecord := mkProductRecord id "" "" "ab cd ef gh" "" "" "" ""

theorem sqrt_twentyfive : Real.sqrt 25 = 5 := by
  rw [show (25 : ℝ) = 5 ^ 2 by norm_num,
    Real.sqrt_sq (by norm_num : (0 : ℝ) ≤ 5)]

def c3Cats : List SeoCategory :=
  [mkSeoCategory id 0 "cd", mkSeoCategory id 1 "ab"]

def c3Prod : ProductRecord := mkProductRecord id "" "" "ab" "" "" "" ""

noncomputable def c3Opts : MappingOptions :=
  { similarityThreshold := 0.75, gapThreshold := 0.05,
    tokenOverlapThreshold := 1, useOpenAI := true, openAIApiKey := some "k",
    confidenceMinPercent := 50 }

noncomputable def c3Embed : Embedder :=
  fun _ => .ok [[1, 0], [1, 0], [1, 0]]

noncomputable def c3Cand1 : CandidateMatch :=
  { categoryId := 0, categoryPath := "cd", score := 0, overlap := 0,
    jaccard := 0 }

noncomputable def c3Cand2 : CandidateMatch :=
  { categoryId := 1, categoryPath := "ab", score := 0.7, overlap := 1,
    jaccard := 1 }

theorem normalizeVec_unit : normalizeVec [(1 : ℝ), 0] = [1, 0] := by
  have hn : l2norm [(1 : ℝ), 0] = 1 := by
    rw [l2norm]
    have hs : (([(1 : ℝ), 0]).map (fun x => x * x)).sum = 1 := by norm_num
    rw [hs, Real.sqrt_one]
  rw [normalizeVec, if_neg (by rw [hn]; exact one_ne_zero), hn]
  norm_num

/-- Witness for C5 (amended) at the concrete rerank run of the `c3` data. -/
theorem refine_gate_on_rescored_topk_witness :
    c3Opts.openAIApiKey = some "k" ∧
    (∃ r, refineWithOpenAI c3Cats c3Opts c3Embed c3Prod
        [c3Cand2, c3Cand1] = .ok (some r) ∧
      r.rankedCandidates = sortCand
        (rescoredTopOf [c3Cand2, c3Cand1]
          (([[1, 0], [1, 0], [1, 0]] : List (List ℝ)).map normalizeVec) ++
          [c3Cand2, c3Cand1].drop
            ([c3Cand2, c3Cand1].take OPENAI_TOP_K).length) ∧
      (r.status = .mapped ↔ rerankAccept c3Opts
        (rescoredTopOf [c3Cand2, c3Cand1]
          (([[1, 0], [1, 0], [1, 0]] : List (List ℝ)).map normalizeVec)))) :=
  ⟨rfl, refine_gate_on_rescored_topk c3Cats c3Opts c3Embed c3Prod
    [c3Cand2, c3Cand1] "k" rfl (by decide) (by decide)
    [[1, 0], [1, 0], [1, 0]] rfl (by simp)⟩

noncomputable def cex5Opts : MappingOptions :=
  { similarityThreshold := 0.55, gapThreshold := 1.5,
    tokenOverlapThreshold := 1, useOpenAI := true, openAIApiKey := some "k",
    confidenceMinPercent := 50 }

noncomputable def cex5Embed : Embedder :=
  fun _ => .ok [[1, 0], [4, 3], [0, 1], [0, 1], [0, 1], [0, 1], [0, 1]]

noncomputable def cex5A1 : CandidateMatch :=
  { categoryId := 0, categoryPath := "p1", score := 0.9, overlap := 1,
    jaccard := 0 }

noncomputable def cex5A2 : CandidateMatch :=
  { categoryId := 1, categoryPath := "p2", score := 0.5, overlap := 0,
    jaccard := 0 }

noncomputable def cex5A3 : CandidateMatch :=
  { categoryId := 2, categoryPath := "p3", score := 0.4, overlap := 0,
    jaccard := 0 }

noncomputable def cex5A4 : CandidateMatch :=
  { categoryId := 3, categoryPath := "p4", score := 0.3, overlap := 0,
    jaccard := 0 }

noncomputable def cex5A5 : CandidateMatch :=
  { categoryId := 4, categoryPath := "p5", score := 0.2, overlap := 0,
    jaccard := 0 }

noncomputable def cex5A6 : CandidateMatch :=
  { categoryId := 5, categoryPath := "p6", score := 0.1, overlap := 0,
    jaccard := 0 }

noncomputable def cex5A7 : CandidateMatch :=
  { categoryId := 6, categoryPath := "p7", score := 0.0845, overlap := 0,
    jaccard := 0 }

noncomputable def cex5Ranked : List CandidateMatch :=
  [cex5A1, cex5A2, cex5A3, cex5A4, cex5A5, cex5A6, cex5A7]

noncomputable def cex5A1R : CandidateMatch :=
  { categoryId := 0, categoryPath := "p1", score := 0.8, overlap := 1,
    jaccard := 0 }

noncomputable def cex5A2R : CandidateMatch :=
  { categoryId := 1, categoryPath := "p2", score := 0, overlap := 0,
    jaccard := 0 }

noncomputable def cex5A3R : CandidateMatch :=
  { categoryId := 2, categoryPath := "p3", score := 0, overlap := 0,
    jaccard := 0 }

noncomputable def cex5A4R : CandidateMatch :=
  { categoryId := 3, categoryPath := "p4", score := 0, overlap := 0,
    jaccard := 0 }

noncomputable def cex5A5R : CandidateMatch :=
  { categoryId := 4, categoryPath := "p5", score := 0, overlap := 0,
    jaccard := 0 }

noncomputable def cex5A6R : CandidateMatch :=
  { categoryId := 5, categoryPath := "p6", score := 0, overlap := 0,
    jaccard := 0 }

theorem normalizeVec_43 : normalizeVec [(4 : ℝ), 3] = [4 / 5, 3 / 5] := by
  have hn : l2norm [(4 : ℝ), 3] = 5 := by
    rw [l2norm]
    have hs : (([(4 : ℝ), 3]).map (fun x => x * x)).sum = 25 := by norm_num
    rw [hs, sqrt_twentyfive]
  rw [normalizeVec, if_neg (by rw [hn]; norm_num), hn]
  norm_num

theorem normalizeVec_01 : normalizeVec [(0 : ℝ), 1] = [0, 1] := by
  have hn : l2norm [(0 : ℝ), 1] = 1 := by
    rw [l2norm]
    have hs : (([(0 : ℝ), 1]).map (fun x => x * x)).sum = 1 := by norm_num
    rw [hs, Real.sqrt_one]
  rw [normalizeVec, if_neg (by rw [hn]; exact one_ne_zero), hn]
  norm_num

theorem cex5EmbNorm : List.map normalizeVec
    [[(1 : ℝ), 0], [4, 3], [0, 1], [0, 1], [0, 1], [0, 1], [0, 1]] =
    [[1, 0], [4 / 5, 3 / 5], [0, 1], [0, 1], [0, 1], [0, 1], [0, 1]] := by
  simp only [List.map_cons, List.map_nil, normalizeVec_unit, normalizeVec_43,
    normalizeVec_01]

theorem cex5SortR : sortCand [cex5A1R, cex5A2R, cex5A3R, cex5A4R, cex5A5R,
    cex5A6R] = [cex5A1R, cex5A2R, cex5A3R, cex5A4R, cex5A5R, cex5A6R] := by
  norm_num [sortCand, insertCand, cex5A1R, cex5A2R, cex5A3R, cex5A4R,
    cex5A5R, cex5A6R]

theorem cex5Rescored : rescoredTopOf cex5Ranked
    [[(1 : ℝ), 0], [4 / 5, 3 / 5], [0, 1], [0, 1], [0, 1], [0, 1], [0, 1]] =
    [cex5A1R, cex5A2R, cex5A3R, cex5A4R, cex5A5R, cex5A6R] := by
  show sortCand
    [{ cex5A1 with score := round6 (dotList [(1 : ℝ), 0] [4 / 5, 3 / 5]) },
     { cex5A2 with score := round6 (dotList [(1 : ℝ), 0] [0, 1]) },
     { cex5A3 with score := round6 (dotList [(1 : ℝ), 0] [0, 1]) },
     { cex5A4 with score := round6 (dotList [(1 : ℝ), 0] [0, 1]) },
     { cex5A5 with score := round6 (dotList [(1 : ℝ), 0] [0, 1]) },
     { cex5A6 with score := round6 (dotList [(1 : ℝ), 0] [0, 1]) }] = _
  have hd1 : dotList [(1 : ℝ), 0] [4 / 5, 3 / 5] = 0.8 := by
    rw [dotList]
    norm_num
  have hd0 : dotList [(1 : ℝ), 0] [0, 1] = 0 := by
    rw [dotList]
    norm_num
  have hr1 : round6 (0.8 : ℝ) = 0.8 := round6_eq_self _ 800000 (by norm_num)
  have hr0 : round6 (0 : ℝ) = 0 := by
    have := round6_eq_self 0 0 (by norm_num)
    simpa using this
  rw [hd1, hd0, hr1, hr0]
  have he1 : { cex5A1 with score := (0.8 : ℝ) } = cex5A1R := by
    rw [cex5A1, cex5A1R]
  have he2 : { cex5A2 with score := (0 : ℝ) } = cex5A2R := by
    rw [cex5A2, cex5A2R]
  have he3 : { cex5A3 with score := (0 : ℝ) } = cex5A3R := by
    rw [cex5A3, cex5A3R]
  have he4 : { cex5A4 with score := (0 : ℝ) } = cex5A4R := by
    rw [cex5A4, cex5A4R]
  have he5 : { cex5A5 with score := (0 : ℝ) } = cex5A5R := by
    rw [cex5A5, cex5A5R]
  have he6 : { cex5A6 with score := (0 : ℝ) } = cex5A6R := by
    rw [cex5A6, cex5A6R]
  rw [he1, he2, he3, he4, he5, he6]
  exact cex5SortR

theorem cex5MergedSort : sortCand [cex5A1R, cex5A2R, cex5A3R, cex5A4R,
    cex5A5R, cex5A6R, cex5A7] = [cex5A1R, cex5A7, cex5A2R, cex5A3R, cex5A4R,
    cex5A5R, cex5A6R] := by
  norm_num [sortCand, insertCand, cex5A1R, cex5A2R, cex5A3R, cex5A4R,
    cex5A5R, cex5A6R, cex5A7]

theorem cex5Refine : ∃ conf rsn,
    refineWithOpenAI exCats cex5Opts cex5Embed exProd cex5Ranked =
      .ok (some { status := .mapped, bestCandidate := some cex5A1R,
                  rankedCandidates := [cex5A1R, cex5A7, cex5A2R, cex5A3R,
                    cex5A4R, cex5A5R, cex5A6R],
                  confidence := conf, reason := rsn }) := by
  rw [refineWithOpenAI, show cex5Opts.openAIApiKey = some "k" from rfl]
  dsimp only
  rw [if_neg (by decide : ¬(jsTrim exProd.aggregatedText = ""))]
  rw [if_neg (by decide :
    ¬((cex5Ranked.take OPENAI_TOP_K).isEmpty = true))]
  have hemb : ∀ x, cex5Embed x =
      .ok [[(1 : ℝ), 0], [4, 3], [0, 1], [0, 1], [0, 1], [0, 1], [0, 1]] :=
    fun _ => rfl
  rw [hemb]
  dsimp only
  rw [if_neg (by simp [cex5Ranked, OPENAI_TOP_K] :
    ¬((List.map normalizeVec
      [[(1 : ℝ), 0], [4, 3], [0, 1], [0, 1], [0, 1], [0, 1], [0, 1]]).length <
      (cex5Ranked.take OPENAI_TOP_K).length + 1))]
  rw [cex5EmbNorm, cex5Rescored]
  simp only [List.head?_cons, List.getElem?_cons_succ,
    List.getElem?_cons_zero]
  rw [if_pos]
  · have hdrop : cex5Ranked.drop
        ((cex5Ranked.take OPENAI_TOP_K).length) = [cex5A7] := rfl
    rw [hdrop]
    have happ : [cex5A1R, cex5A2R, cex5A3R, cex5A4R, cex5A5R, cex5A6R] ++
        [cex5A7] = [cex5A1R, cex5A2R, cex5A3R, cex5A4R, cex5A5R, cex5A6R,
          cex5A7] := rfl
    rw [happ, cex5MergedSort]
    exact ⟨_, _, rfl⟩
  · refine ⟨?_, ?_, Or.inr ?_⟩
    · show cex5A1R.score ≥ max cex5Opts.similarityThreshold
        OPENAI_SIMILARITY_THRESHOLD
      rw [cex5A1R, cex5Opts, OPENAI_SIMILARITY_THRESHOLD, ge_iff_le,
        max_le_iff]
      constructor <;> norm_num
    · show ((cex5A1R.overlap : ℕ) : ℝ) ≥ max 0
        (cex5Opts.tokenOverlapThreshold - 1)
      rw [cex5A1R, cex5Opts, ge_iff_le, max_le_iff]
      constructor <;> norm_num
    · show cex5A1R.score - cex5A2R.score ≥ max (cex5Opts.gapThreshold / 2)
        OPENAI_GAP_THRESHOLD
      rw [cex5A1R, cex5A2R, cex5Opts, OPENAI_GAP_THRESHOLD, ge_iff_le,
        max_le_iff]
      constructor <;> norm_num

/-- Counterexample for C5: the reranker accepts this product (status
`mapped`) although the gate evaluated on the merged re-sorted list fails —
the merged number-two (the untouched remainder candidate, score 0.0845)
leaves a gap of 0.7155 below the required max(gapThreshold/2, 0.02) = 0.75.
The code's gap is taken against the pre-merge rescored list's number-two
(score 0, gap 0.8), so the spec's "recompute gap against the merged #2" is
not what the code does. -/
theorem refine_gate_on_rescored_topk_cex : ∃ conf rsn,
    (refineWithOpenAI exCats cex5Opts cex5Embed exProd cex5Ranked =
      .ok (some { status := .mapped, bestCandidate := some cex5A1R,
                  rankedCandidates := [cex5A1R, cex5A7, cex5A2R, cex5A3R,
                    cex5A4R, cex5A5R, cex5A6R],
                  confidence := conf, reason := rsn })) ∧
    ¬rerankAccept cex5Opts [cex5A1R, cex5A7, cex5A2R, cex5A3R, cex5A4R,
      cex5A5R, cex5A6R] := by
  obtain ⟨conf, rsn, h⟩ := cex5Refine
  refine ⟨conf, rsn, h, ?_⟩
  rw [rerankAccept]
  rintro ⟨-, -, hor⟩
  rcases hor with h2 | h2
  · simp at h2
  · simp only [List.head?_cons] at h2
    rw [cex5A1R, cex5A7, cex5Opts, OPENAI_GAP_THRESHOLD] at h2
    rw [ge_iff_le, max_le_iff] at h2
    rcases h2 with ⟨h3, -⟩
    norm_num at h3

/-! ### C8: accepted-rerank and negative-confidence instances -/

end SeoMapper
